import Mathlib

set_option maxRecDepth 16000
set_option maxHeartbeats 1000000

/-!
Verification of the Hacklytics housing-recommendation engine
(`src/housing_ai.py`, `src/agent_caller.py`).

The Python code is shallowly embedded as executable Lean definitions:

* CSV cell values become the inductive `PyVal` (None, NaN, bool, int,
  float, str); non-NaN floats are modelled as exact rationals.
* A loaded dataframe row becomes the record `Listing`; a loaded dataframe
  is a `List Listing` in dataset order.
* pandas boolean row-filtering (`df[mask]`) becomes `List.filter` with a
  per-row `Bool` predicate; a pandas comparison against NaN is `false`.
* `sort_values("score", ascending=False)` is embedded the way pandas
  implements it (`nargsort`): an ascending argsort followed by reversing
  the indexer.  On the small frames used as concrete inputs numpy's
  argsort is a stable insertion sort, so the embedding uses a stable
  ascending sort and then `List.reverse`.
* `round(x, 2)` is embedded over exact rationals as `⌊100·x + 1/2⌋/100`;
  no property proved here distinguishes this from float half-even
  rounding.
-/

namespace Housing

/-- A Python value as it occurs in a cell of the CSV-loaded table.
`pnan` is the float NaN; other floats are `pfloat` with an exact
rational payload. -/
inductive PyVal where
  | pnone : PyVal
  | pnan : PyVal
  | pbool : Bool → PyVal
  | pint : Int → PyVal
  | pfloat : ℚ → PyVal
  | pstr : String → PyVal
deriving DecidableEq, Repr

/-- `HousingAI._parse_bool`: None and NaN give False; a bool passes
through; a string is stripped, lower-cased and compared against
{"yes","true","1"}; any other value is coerced with Python `bool()`
(nonzero numbers are truthy). -/
def parse_bool : PyVal → Bool
  | .pnone => false
  | .pnan => false
  | .pbool b => b
  | .pint n => n != 0
  | .pfloat q => q != 0
  | .pstr s => (["yes", "true", "1"] : List String).contains (s.trim.toLower)

/-- One row of the dataset *after* `_load_data` has normalised it:
boolean-flag columns hold `Bool`, `monthly_rent` is numeric-or-NaN
(`Option ℚ`, `none` = NaN), `bedrooms` is an integer.  String columns
that may contain NaN are `Option String`. -/
structure Listing where
  id : Int := 0
  address : String := ""
  city : Option String := none
  state : Option String := none
  zip_code : PyVal := .pnone
  monthly_rent : Option ℚ := none
  bedrooms : Int := 0
  agent_name : String := ""
  agent_phone : String := ""
  agent_email : String := ""
  languages_spoken : Option String := none
  section8_accepted : Bool := false
  hud_approved : Bool := false
  low_income_eligible : Bool := false
  nearby_transit : Bool := false
  utilities_included : Bool := false
  pets_allowed : Bool := false
  accessibility_features : Option String := none
  income_limit_percent_ami : Option ℚ := none
deriving DecidableEq, Repr

/-- The module-level `LANGUAGE_ALIASES` dict, in its (significant)
insertion order. -/
def LANGUAGE_ALIASES : List (String × String) :=
  [("english", "English"),
   ("spanish", "Spanish"),
   ("spanish/latin", "Spanish"),
   ("chinese", "Chinese"),
   ("mandarin", "Chinese"),
   ("cantonese", "Chinese"),
   ("korean", "Korean"),
   ("vietnamese", "Vietnamese"),
   ("arabic", "Arabic"),
   ("hindi", "Hindi"),
   ("gujarati", "Gujarati"),
   ("french", "French"),
   ("amharic", "Amharic"),
   ("somali", "Somali"),
   ("haitian creole", "Haitian Creole"),
   ("creole", "Haitian Creole"),
   ("russian", "Russian")]

/-- `LANGUAGE_ALIASES.get(language.lower(), language)`. -/
def alias_lookup (language : String) : String :=
  match LANGUAGE_ALIASES.lookup language.toLower with
  | some canonical => canonical
  | none => language

/-- Case-insensitive substring test, embedding
`Series.str.contains(pat, case=False)` for a pattern free of regex
metacharacters. -/
def containsCI (hay pat : String) : Bool :=
  decide (pat.toLower.toList <:+: hay.toLower.toList)

/-- Python `round(x, 2)` over exact rationals. -/
def round2 (x : ℚ) : ℚ := (⌊x * 100 + 1 / 2⌋ : ℚ) / 100

/-- The affordability component of `_score_listing`:
`max(0, 40 - rent/30)`; for NaN rent Python's `max(0, nan)` keeps `0`. -/
def affordability (l : Listing) : ℚ :=
  match l.monthly_rent with
  | none => 0
  | some r => max 0 (40 - r / 30)

/-- The additive bonus part of `_score_listing`.  After load the flag
columns hold `Bool`, so `utilities_included not in (None,"","None",False,nan)`
is simply the flag itself.  A NaN `accessibility_features` cell is truthy
in Python and `str(nan) = "nan"` passes the sentinel test, so `none`
earns the bonus; the empty string is falsy and does not. -/
def bonus (l : Listing) : ℚ :=
  (if l.low_income_eligible then 15 else 0)
  + (if l.section8_accepted then 10 else 0)
  + (if l.hud_approved then 10 else 0)
  + (if l.nearby_transit then 5 else 0)
  + (if l.utilities_included then 5 else 0)
  + (match l.accessibility_features with
     | none => 5
     | some s => if s != "" && s.trim != "None" && s.trim != "" then 5 else 0)

/-- `HousingAI._score_listing`. -/
def score_listing (l : Listing) : ℚ :=
  round2 (affordability l + bonus l)

/-- The keyword arguments of `HousingAI.search`, with the Python
defaults. -/
structure SearchParams where
  max_rent : Option ℚ := none
  min_bedrooms : Int := 0
  city : Option String := none
  state : Option String := none
  zip_code : Option String := none
  language : Option String := none
  section8 : Bool := false
  hud_approved : Bool := false
  low_income_only : Bool := false
  needs_transit : Bool := false
  pets_allowed : Bool := false
  accessibility : Bool := false
  ami_percent : Option ℚ := none
  top_n : Int := 10
deriving Repr

/-- Python `str()` of a cell value, for `zip_code.astype(str)`.  The
float rendering is approximate; no claim exercises it. -/
def py_str : PyVal → String
  | .pnone => "None"
  | .pnan => "nan"
  | .pbool b => if b then "True" else "False"
  | .pint n => toString n
  | .pfloat q => toString q
  | .pstr s => s

/-- `results[results["monthly_rent"] <= max_rent]`: a NaN rent compares
False.  Inactive when `max_rent is None`. -/
def max_rent_ok (p : SearchParams) (l : Listing) : Bool :=
  match p.max_rent with
  | none => true
  | some R =>
    match l.monthly_rent with
    | none => false
    | some r => decide (r ≤ R)

/-- `if min_bedrooms:` — Python truthiness, so `0` deactivates the
filter. -/
def min_bedrooms_ok (p : SearchParams) (l : Listing) : Bool :=
  if p.min_bedrooms = 0 then true else decide (p.min_bedrooms ≤ l.bedrooms)

/-- `results["city"].str.lower() == city.strip().lower()`; a NaN city
cell compares False; the empty string parameter is falsy. -/
def city_ok (p : SearchParams) (l : Listing) : Bool :=
  match p.city with
  | none => true
  | some c =>
    if c = "" then true
    else match l.city with
         | none => false
         | some lc => lc.toLower == c.trim.toLower

/-- `results["state"].str.upper() == state.strip().upper()`. -/
def state_ok (p : SearchParams) (l : Listing) : Bool :=
  match p.state with
  | none => true
  | some st =>
    if st = "" then true
    else match l.state with
         | none => false
         | some ls => ls.toUpper == st.trim.toUpper

/-- `results["zip_code"].astype(str) == str(zip_code).strip()`. -/
def zip_ok (p : SearchParams) (l : Listing) : Bool :=
  match p.zip_code with
  | none => true
  | some z => if z = "" then true else py_str l.zip_code == z.trim

def section8_ok (p : SearchParams) (l : Listing) : Bool :=
  !p.section8 || l.section8_accepted

def hud_ok (p : SearchParams) (l : Listing) : Bool :=
  !p.hud_approved || l.hud_approved

def low_income_ok (p : SearchParams) (l : Listing) : Bool :=
  !p.low_income_only || l.low_income_eligible

def transit_ok (p : SearchParams) (l : Listing) : Bool :=
  !p.needs_transit || l.nearby_transit

def pets_ok (p : SearchParams) (l : Listing) : Bool :=
  !p.pets_allowed || l.pets_allowed

/-- `accessibility_features.notna() & (strip != "None") & (strip != "")`. -/
def accessibility_ok (p : SearchParams) (l : Listing) : Bool :=
  if !p.accessibility then true
  else match l.accessibility_features with
       | none => false
       | some s => s.trim != "None" && s.trim != ""

def ami_ok (p : SearchParams) (l : Listing) : Bool :=
  match p.ami_percent with
  | none => true
  | some a =>
    match l.income_limit_percent_ami with
    | none => false
    | some v => decide (v ≤ a)

/-- The language membership test of `search`: canonicalise through
`LANGUAGE_ALIASES` (falling back to the input), then
`languages_spoken.str.contains(normalised, case=False, na=False)`. -/
def language_ok (p : SearchParams) (l : Listing) : Bool :=
  match p.language with
  | none => true
  | some lang =>
    if lang = "" then true
    else match l.languages_spoken with
         | none => false
         | some spoken => containsCI spoken (alias_lookup lang)

/-- The hard-filter section of `HousingAI.search`: the thirteen
row-subsettings applied in source order.  A filter whose parameter is
absent/falsy keeps every row. -/
def filter_listings (p : SearchParams) (df : List Listing) : List Listing :=
  ((((((((((((df.filter (max_rent_ok p)).filter (min_bedrooms_ok p)).filter
    (city_ok p)).filter (state_ok p)).filter (zip_ok p)).filter
    (section8_ok p)).filter (hud_ok p)).filter (low_income_ok p)).filter
    (transit_ok p)).filter (pets_ok p)).filter (accessibility_ok p)).filter
    (ami_ok p)).filter (language_ok p)

/-- `DataFrame.head(n)`: the first `n` rows for `n ≥ 0`, all but the
last `|n|` rows for negative `n`. -/
def headN (n : Int) (xs : List (Listing × ℚ)) : List (Listing × ℚ) :=
  xs.take (if 0 ≤ n then n.toNat else xs.length - (-n).toNat)

/-- `results.sort_values("score", ascending=False)` applied to rows
tagged with their score, parameterised by the scoring function.  pandas
`nargsort` computes an ascending argsort and reverses the indexer; the
ascending sort here is a stable insertion sort (what numpy uses on small
arrays). -/
def rank_with (sc : Listing → ℚ) (df : List Listing) : List (Listing × ℚ) :=
  (List.insertionSort (fun a b : Listing × ℚ => a.2 ≤ b.2)
    (df.map (fun l => (l, sc l)))).reverse

/-- `HousingAI.search` with the scoring function abstracted, so that the
empty-result short-circuit can be stated as independence from scoring:
hard filters, early return on empty, score + descending sort, `head`. -/
def search_with (sc : Listing → ℚ) (p : SearchParams) (df : List Listing) :
    List (Listing × ℚ) :=
  if (filter_listings p df).isEmpty then []
  else headN p.top_n (rank_with sc (filter_listings p df))

/-- `HousingAI.search`: rows of the returned frame, each with its
`score` column. -/
def search (p : SearchParams) (df : List Listing) : List (Listing × ℚ) :=
  search_with score_listing p df

/-! ### Load-time model (`_load_data`)

`_load_data` works on the raw frame returned by `read_csv`, before the
typed `Listing` view exists, so it is modelled on a raw table: a column
list plus rows of (column, value) cells. -/

/-- A raw dataframe as produced by `pd.read_csv`: the column names and
one association list of cells per row. -/
structure RawTable where
  cols : List String
  rows : List (List (String × PyVal))
deriving Repr

/-- The boolean columns normalised at load time, in source order. -/
def bool_columns : List String :=
  ["section8_accepted", "hud_approved", "low_income_eligible",
   "nearby_transit", "utilities_included", "pets_allowed"]

/-- `df[c] = df[c].apply(f)` for a column `c` known to exist. -/
def map_col (c : String) (f : PyVal → PyVal) (t : RawTable) : RawTable :=
  { t with rows := t.rows.map (List.map
      (fun kv => if kv.1 = c then (kv.1, f kv.2) else kv)) }

/-- Decimal digit string to a natural number (the string is assumed
all-digit by the caller). -/
def digits_to_nat (cs : List Char) : Nat :=
  cs.foldl (fun acc c => acc * 10 + (c.toNat - 48)) 0

/-- Numeric parsing of a decimal string (optional sign, optional
fractional part), approximating what `pd.to_numeric` accepts. -/
def parse_rat (s : String) : Option ℚ :=
  let t := s.trim
  let neg := t.startsWith "-"
  let body := if neg then t.drop 1 else t
  let q? : Option ℚ :=
    match body.splitOn "." with
    | [i] =>
      if i ≠ "" && i.toList.all Char.isDigit
      then some ((digits_to_nat i.toList : ℚ)) else none
    | [i, f] =>
      if i ≠ "" && i.toList.all Char.isDigit && f.toList.all Char.isDigit
      then some ((digits_to_nat i.toList : ℚ)
                 + (digits_to_nat f.toList : ℚ) / (10 ^ f.length))
      else none
    | _ => none
  q?.map (fun q => if neg then -q else q)

/-- `pd.to_numeric(x, errors="coerce")` on one cell: numbers pass,
parsable strings convert, everything else becomes NaN. -/
def to_numeric : PyVal → PyVal
  | .pint n => .pint n
  | .pfloat q => .pfloat q
  | .pbool b => .pint (if b then 1 else 0)
  | .pstr s => match parse_rat s with
               | some q => .pfloat q
               | none => .pnan
  | _ => .pnan

/-- `.fillna(0).astype(int)` on one already-numeric cell (`astype(int)`
truncates toward zero). -/
def fillna0_int : PyVal → PyVal
  | .pint n => .pint n
  | .pfloat q => .pint (if q < 0 then ⌈q⌉ else ⌊q⌋)
  | _ => .pint 0

/-- The first pass of `HousingAI._load_data`: each boolean column is
normalised through `_parse_bool` **only if present** (the
`if col in df.columns` guard). -/
def normalize_bools (t : RawTable) : RawTable :=
  bool_columns.foldl
    (fun acc c =>
      if acc.cols.contains c
      then map_col c (fun v => .pbool (parse_bool v)) acc
      else acc) t

/-- `HousingAI._load_data` after `read_csv` has produced the raw table:
normalise the boolean columns that exist, then coerce `monthly_rent`
and `bedrooms` — reading either of those two columns raises `KeyError`
when it is absent.  No other column is required at load time. -/
def load_data (t : RawTable) : Except String RawTable :=
  if ¬ (normalize_bools t).cols.contains "monthly_rent" then
    Except.error "KeyError: monthly_rent"
  else if ¬ (map_col "monthly_rent" to_numeric
              (normalize_bools t)).cols.contains "bedrooms" then
    Except.error "KeyError: bedrooms"
  else
    Except.ok (map_col "bedrooms" (fun v => fillna0_int (to_numeric v))
      (map_col "monthly_rent" to_numeric (normalize_bools t)))

/-! ### Query parser (`parse_query`) -/

/-- A value in the parameter dict returned by `parse_query`. -/
inductive PVal where
  | pint : Int → PVal
  | pstr : String → PVal
  | pbool : Bool → PVal
deriving DecidableEq, Repr

/-- Python regex `\w` over the ASCII inputs considered here. -/
def is_word_char (c : Char) : Bool := c.isAlphanum || c = '_'

/-- Plain (case-sensitive) substring test, Python `pat in hay`. -/
def contains_sub (hay pat : String) : Bool :=
  decide (pat.toList <:+: hay.toList)

/-- The rent rule `re.search(r"\$?\b(\d{3,4})\b.*?(rent|month|...)?", q)`:
the optional `$` and the optional trailing group never constrain the
match, so it succeeds exactly on the first maximal word-character run
that is 3 or 4 digits, and captures those digits. -/
def rent_match (q : String) : Option Nat :=
  let runs := (q.toList.splitOnP (fun c => ¬ is_word_char c)).filter (· ≠ [])
  (runs.find? (fun r => r.all Char.isDigit
      && (r.length = 3 || r.length = 4))).map digits_to_nat

/-- The bedrooms rule `re.search(r"(\d)\s*(?:bed(?:room)?s?|br\b)", q)`:
leftmost digit followed (after whitespace) by the literal `bed` (the
`room`/`s` suffixes are optional) or by `br` at a word boundary. -/
def bed_scan : List Char → Option Nat
  | [] => none
  | c :: rest =>
    if c.isDigit then
      let after := rest.dropWhile Char.isWhitespace
      if (['b', 'e', 'd'].isPrefixOf after)
         || (['b', 'r'].isPrefixOf after &&
             (match after.drop 2 with
              | [] => true
              | d :: _ => ¬ is_word_char d))
      then some (c.toNat - 48)
      else bed_scan rest
    else bed_scan rest

def bed_match (q : String) : Option Nat := bed_scan q.toList

/-- Python `str.title()`: upper-case every cased character that follows
a non-alphabetic character, lower-case the rest. -/
def py_title (s : String) : String :=
  String.mk (s.toList.foldl
    (fun (acc : List Char × Bool) c =>
      (acc.1 ++ [if acc.2 then c.toLower else c.toUpper], c.isAlpha))
    ([], false)).1  -- the Bool tracks whether the previous character was alphabetic

/-- The known-city list of `parse_query`, in source order. -/
def known_cities : List String :=
  ["atlanta", "decatur", "norcross", "chamblee", "sandy springs",
   "college park", "brookhaven", "jonesboro"]

/-- First known city occurring in the lower-cased query, title-cased. -/
def city_match (q : String) : Option String :=
  (known_cities.find? (fun c => contains_sub q c)).map py_title

/-- `" ga " in q or "georgia" in q or q.endswith(" ga")`. -/
def state_match (q : String) : Bool :=
  contains_sub q " ga " || contains_sub q "georgia" || q.endsWith " ga"

def section8_match (q : String) : Bool :=
  contains_sub q "section 8" || contains_sub q "section8" || contains_sub q "voucher"

def low_income_match (q : String) : Bool :=
  ["low income", "low-income", "affordable", "cheap", "subsidized"].any
    (contains_sub q)

def transit_match (q : String) : Bool :=
  ["transit", "bus", "marta", "train", "public transport"].any (contains_sub q)

def pets_match (q : String) : Bool :=
  contains_sub q "pet" || contains_sub q "dog" || contains_sub q "cat"

def accessibility_match (q : String) : Bool :=
  ["wheelchair", "accessible", "accessibility", "disability", "disabled"].any
    (contains_sub q)

/-- First `LANGUAGE_ALIASES` key (dict insertion order) occurring in the
query, mapped to its canonical value. -/
def lang_match (q : String) : Option String :=
  (LANGUAGE_ALIASES.find? (fun kv => contains_sub q kv.1)).map (·.2)

/-- The dict contribution of one option-valued parser rule: its key and
converted value when the rule fired, nothing otherwise. -/
def opt_param {β : Type} (o : Option β) (k : String) (g : β → PVal) :
    List (String × PVal) :=
  match o with
  | some n => [(k, g n)]
  | none => []

/-- `HousingAI.parse_query`: lower-case the query, then run every rule;
a rule that does not fire contributes no key.  Total by construction. -/
def parse_query (query : String) : List (String × PVal) :=
  let q := query.toLower
  opt_param (rent_match q) "max_rent" (fun n => PVal.pint n)
  ++ opt_param (bed_match q) "min_bedrooms" (fun n => PVal.pint n)
  ++ opt_param (city_match q) "city" PVal.pstr
  ++ (if state_match q then [("state", PVal.pstr "GA")] else [])
  ++ (if section8_match q then [("section8", PVal.pbool true)] else [])
  ++ (if contains_sub q "hud" then [("hud_approved", PVal.pbool true)] else [])
  ++ (if low_income_match q then [("low_income_only", PVal.pbool true)] else [])
  ++ (if transit_match q then [("needs_transit", PVal.pbool true)] else [])
  ++ (if pets_match q then [("pets_allowed", PVal.pbool true)] else [])
  ++ (if accessibility_match q then [("accessibility", PVal.pbool true)] else [])
  ++ opt_param (lang_match q) "language" PVal.pstr

/-- The keys `parse_query` may emit, in rule order. -/
def param_keys : List String :=
  ["max_rent", "min_bedrooms", "city", "state", "section8", "hud_approved",
   "low_income_only", "needs_transit", "pets_allowed", "accessibility",
   "language"]

def get_int (ps : List (String × PVal)) (k : String) : Option Int :=
  match ps.lookup k with
  | some (.pint n) => some n
  | _ => none

def get_str (ps : List (String × PVal)) (k : String) : Option String :=
  match ps.lookup k with
  | some (.pstr s) => some s
  | _ => none

def get_flag (ps : List (String × PVal)) (k : String) : Bool :=
  match ps.lookup k with
  | some (.pbool b) => b
  | _ => false

/-- `search(**params)`: binding the parser's dynamic dict to the keyword
arguments of `search`, with `top_n` set by the caller. -/
def to_search_params (ps : List (String × PVal)) (top_n : Int) : SearchParams :=
  { max_rent := (get_int ps "max_rent").map (fun n => (n : ℚ))
    min_bedrooms := (get_int ps "min_bedrooms").getD 0
    city := get_str ps "city"
    state := get_str ps "state"
    zip_code := none
    language := get_str ps "language"
    section8 := get_flag ps "section8"
    hud_approved := get_flag ps "hud_approved"
    low_income_only := get_flag ps "low_income_only"
    needs_transit := get_flag ps "needs_transit"
    pets_allowed := get_flag ps "pets_allowed"
    accessibility := get_flag ps "accessibility"
    ami_percent := none
    top_n := top_n }

/-! ### Query orchestrator (`answer_query`) -/

/-- The fixed no-match message of `answer_query`. -/
def no_match_summary : String :=
  "I\x27m sorry, I couldn\x27t find any listings that match your criteria. " ++
  "Try broadening your search — for example, increase your budget or " ++
  "expand to nearby cities."

/-- Insert a comma after every third character of a least-significant-
first digit list. -/
def group3 : List Char → List Char
  | a :: b :: c :: rest@(_ :: _) => a :: b :: c :: ',' :: group3 rest
  | l => l

/-- `f"{q:,.0f}"`: round to integer and insert thousands separators
(`nan` renders as "nan"). -/
def fmt_thousands (r : Option ℚ) : String :=
  match r with
  | none => "nan"
  | some q =>
    let n : Int := ⌊q + 1 / 2⌋
    let ds := (toString n.natAbs).toList.reverse
    (if n < 0 then "-" else "") ++ ((group3 ds).reverse).asString

/-- One result line of the non-empty `answer_query` summary. -/
def format_result_line (row : Listing × ℚ) : String :=
  let l := row.1
  "• " ++ l.address ++ ", " ++ (l.city.getD "nan") ++ ", " ++
  (l.state.getD "nan") ++ " — $" ++ fmt_thousands l.monthly_rent ++
  "/mo | " ++ toString l.bedrooms ++ " bed | Section 8: " ++
  (if l.section8_accepted then "✓" else "✗") ++ " | Agent: " ++
  l.agent_name ++ " (" ++ l.agent_phone ++ ")"

/-- The result of `answer_query`. -/
structure Answer where
  params : SearchParams
  results : List (Listing × ℚ)
  summary : String

/-- `HousingAI.answer_query`: parse, search with the caller's `top_n`,
and render either the fixed apology or one line per listing. -/
def answer_query (df : List Listing) (query : String) (top_n : Int) : Answer :=
  ⟨to_search_params (parse_query query) top_n,
   search (to_search_params (parse_query query) top_n) df,
   if (search (to_search_params (parse_query query) top_n) df).isEmpty then
     no_match_summary
   else
     String.intercalate "\n"
       (("I found "
         ++ toString (search (to_search_params (parse_query query) top_n) df).length
         ++ " listing(s) that match your needs:\n")
        :: (search (to_search_params (parse_query query) top_n) df).map
             format_result_line)⟩

/-! ### Agent contact module (`src/agent_caller.py`)

The Twilio / SMTP transports are network collaborators; they are
abstracted as function parameters so that “the transport was not
invoked” can be stated as independence of the result from the transport.
A listing here is the Python dict handed to `AgentCaller`. -/

/-- Python `dict.get(k, default)`. -/
def dict_get (d : List (String × PyVal)) (k : String) (default : PyVal) : PyVal :=
  (d.lookup k).getD default

/-- Python truthiness of a cell value (note: NaN is truthy). -/
def py_truthy : PyVal → Bool
  | .pnone => false
  | .pnan => true
  | .pbool b => b
  | .pint n => n != 0
  | .pfloat q => q != 0
  | .pstr s => s != ""

/-- The `GREETINGS["English"]` template, applied to its context. -/
def greeting_english (user_name address rent user_phone : String) : String :=
  "Hello, my name is Alex, a virtual housing assistant. " ++
  "I am calling on behalf of " ++ user_name ++
  " who is looking for affordable housing. " ++
  "They are interested in the property at " ++ address ++
  " listed at $" ++ rent ++ "/month. " ++
  "Could you please provide more information or schedule a viewing? " ++
  "Their contact number is " ++ user_phone ++ ". Thank you."

/-- The `GREETINGS` dict: language → filled-in call script. -/
def greetings : List (String × (String → String → String → String → String)) :=
  [("English", greeting_english),
   ("Spanish", fun user_name address rent user_phone =>
     "Hola, me llamo Alex, soy un asistente virtual de vivienda. " ++
     "Llamo en nombre de " ++ user_name ++
     ", quien busca vivienda asequible. " ++
     "Está interesado/a en la propiedad en " ++ address ++
     " listada a $" ++ rent ++ "/mes. " ++
     "¿Podría proporcionarme más información o programar una visita? " ++
     "Su número de contacto es " ++ user_phone ++ ". Gracias."),
   ("French", fun user_name address rent user_phone =>
     "Bonjour, je m\x27appelle Alex, assistant virtuel en immobilier. " ++
     "J\x27appelle au nom de " ++ user_name ++
     " qui recherche un logement abordable. " ++
     "Il/Elle est intéressé(e) par le bien au " ++ address ++
     " affiché à $" ++ rent ++ "/mois. " ++
     "Pourriez-vous fournir plus d\x27informations ou planifier une visite? " ++
     "Son numéro de contact est " ++ user_phone ++ ". Merci."),
   ("Amharic", fun user_name address rent user_phone =>
     "ሰላም፣ ስሜ አሌክስ ነው፣ ምናባዊ የቤቶች ረዳት ነኝ። " ++
     "በ" ++ user_name ++ " ስም እደውልሃለሁ፣ ተመጣጣኝ ቤት እየፈለጉ ነው። " ++
     "በ" ++ address ++ " ያለውን ቤት $" ++ rent ++ "/ወር ፍላጎት አላቸው። " ++
     "ተጨማሪ መረጃ ወይም ጉብኝት ማዘጋጀት ይችላሉ? " ++
     "የእርሳቸው ስልክ ቁጥር " ++ user_phone ++ " ነው። አስቀድሜ አመሰግናለሁ።")]

/-- `AgentCaller.build_call_script`: pick the greeting for the preferred
language (falling back to English) and interpolate the listing/user
context. -/
def build_call_script (listing : List (String × PyVal))
    (user_name user_phone preferred_language : String) : String :=
  let template := (greetings.lookup preferred_language).getD greeting_english
  template user_name
    (py_str (dict_get listing "address" (.pstr "the listed property")))
    (py_str (dict_get listing "monthly_rent" (.pstr "N/A")))
    user_phone

/-- The `EMAIL_SUBJECTS` dict, filled in with the address. -/
def email_subject (language address : String) : String :=
  if language = "Spanish" then
    "Consulta sobre vivienda asequible — " ++ address
  else if language = "French" then
    "Demande de logement abordable — " ++ address
  else if language = "Amharic" then
    "ተመጣጣኝ ቤት ጥያቄ — " ++ address
  else
    "Affordable Housing Inquiry — " ++ address

/-- The `EMAIL_BODIES` dict (English and Spanish only; everything else
falls back to English), filled in with its context. -/
def email_body (language agent_name user_name address city state rent
    user_phone user_email : String) : String :=
  if language = "Spanish" then
    "Estimado/a " ++ agent_name ++ ",\n\n" ++
    "Me llamo " ++ user_name ++
    " y estoy buscando vivienda asequible. " ++
    "Encontré su propiedad en " ++ address ++ ", " ++ city ++ ", " ++
    state ++ " por $" ++ rent ++ "/mes y estoy muy interesado/a.\n\n" ++
    "¿Podría contactarme en " ++ user_phone ++ " o " ++ user_email ++
    " para hablar sobre disponibilidad y coordinar una visita?\n\n" ++
    "Gracias por su tiempo.\n\nAtentamente,\n" ++ user_name
  else
    "Dear " ++ agent_name ++ ",\n\n" ++
    "My name is " ++ user_name ++
    " and I am looking for affordable housing. " ++
    "I found your listing at " ++ address ++ ", " ++ city ++ ", " ++
    state ++ " for $" ++ rent ++ "/month and I am very interested.\n\n" ++
    "Could you please contact me at " ++ user_phone ++ " or " ++
    user_email ++ " to discuss availability and schedule a viewing?\n\n" ++
    "Thank you for your time.\n\nBest regards,\n" ++ user_name

/-- `AgentCaller.build_email`: subject and body for the preferred
language, with English fallback. -/
def build_email (listing : List (String × PyVal))
    (user_name user_phone user_email preferred_language : String) :
    String × String :=
  let address := py_str (dict_get listing "address" (.pstr "the listed property"))
  let subject := email_subject preferred_language address
  let body := email_body preferred_language
    (py_str (dict_get listing "agent_name" (.pstr "Agent")))
    user_name address
    (py_str (dict_get listing "city" (.pstr "")))
    (py_str (dict_get listing "state" (.pstr "")))
    (py_str (dict_get listing "monthly_rent" (.pstr "N/A")))
    user_phone user_email
  (subject, body)

/-- A transport result dict (`success` plus optional `error`/`sid`). -/
structure ContactResult where
  success : Bool
  error : Option String := none
  sid : Option String := none
deriving DecidableEq, Repr

/-- `AgentCaller.contact_agent_for_listing`, with the three transports
(`call_agent`, `send_sms`, `send_email`) as parameters: `"call"` and
`"sms"` dispatch to the phone transports; **every other** method string
takes the email branch, which first rejects a falsy `agent_email`. -/
def contact_agent_for_listing
    (call_transport sms_transport : String → String → ContactResult)
    (email_transport : String → String → String → ContactResult)
    (listing : List (String × PyVal))
    (user_name user_phone user_email preferred_language method : String) :
    ContactResult :=
  if method = "call" then
    call_transport (py_str (dict_get listing "agent_phone" (.pstr "")))
      (build_call_script listing user_name user_phone preferred_language)
  else if method = "sms" then
    sms_transport (py_str (dict_get listing "agent_phone" (.pstr "")))
      ((build_call_script listing user_name user_phone preferred_language).take 1600)
  else
    if ¬ py_truthy (dict_get listing "agent_email" (.pstr "")) then
      { success := false, error := some "No agent email for this listing." }
    else
      email_transport (py_str (dict_get listing "agent_email" (.pstr "")))
        (build_email listing user_name user_phone user_email preferred_language).1
        (build_email listing user_name user_phone user_email preferred_language).2

/-! ### Concrete data used by witnesses and counterexamples -/

/-- A listing with every flag false, no rent and no accessibility text:
its score is exactly the NaN-accessibility bonus. -/
def tieA : Listing := { id := 1 }

/-- A second such listing, distinguishable only by its id. -/
def tieB : Listing := { id := 2 }

/-- A single affordable listing used to witness the rent filter. -/
def wListing : Listing := { id := 7, monthly_rent := some 600 }

/-! ### Helper lemmas -/

/-- A row of a `search_with` result comes from the filtered set and
carries the score of its listing. -/
theorem mem_search_with {sc : Listing → ℚ} {p : SearchParams}
    {df : List Listing} {l : Listing} {s : ℚ}
    (h : (l, s) ∈ search_with sc p df) :
    l ∈ filter_listings p df ∧ s = sc l := by
  unfold search_with at h
  by_cases he : (filter_listings p df).isEmpty
  · rw [if_pos he] at h
    cases h
  · rw [if_neg he] at h
    unfold headN at h
    have h1 : (l, s) ∈ rank_with sc (filter_listings p df) :=
      List.mem_of_mem_take h
    unfold rank_with at h1
    rw [List.mem_reverse] at h1
    have h2 := (List.perm_insertionSort
      (fun a b : Listing × ℚ => a.2 ≤ b.2) _).mem_iff.mp h1
    rw [List.mem_map] at h2
    obtain ⟨a, ha, hea⟩ := h2
    rw [Prod.mk.injEq] at hea
    obtain ⟨rfl, rfl⟩ := hea
    exact ⟨ha, rfl⟩

/-- Membership in the filter pipeline is membership in the dataset plus
all thirteen predicates. -/
theorem mem_filter_listings {p : SearchParams} {df : List Listing} {l : Listing} :
    l ∈ filter_listings p df ↔
      l ∈ df ∧ max_rent_ok p l = true ∧ min_bedrooms_ok p l = true ∧
      city_ok p l = true ∧ state_ok p l = true ∧ zip_ok p l = true ∧
      section8_ok p l = true ∧ hud_ok p l = true ∧ low_income_ok p l = true ∧
      transit_ok p l = true ∧ pets_ok p l = true ∧
      accessibility_ok p l = true ∧ ami_ok p l = true ∧
      language_ok p l = true := by
  unfold filter_listings
  simp only [List.mem_filter, and_assoc]

/-! ### The claims -/

/-- C1: with `max_rent = R`, every listing in a search result has a
present (non-NaN) monthly rent, and that rent is at most `R`; listings
with a missing rent are excluded. -/
theorem search_max_rent_le (p : SearchParams) (df : List Listing) (R : ℚ)
    (hR : p.max_rent = some R) (l : Listing) (s : ℚ)
    (h : (l, s) ∈ search p df) :
    ∃ r : ℚ, l.monthly_rent = some r ∧ r ≤ R := by
  have hm := (mem_search_with h).1
  have hok := (mem_filter_listings.mp hm).2.1
  unfold max_rent_ok at hok
  rw [hR] at hok
  cases hml : l.monthly_rent with
  | none => rw [hml] at hok; cases hok
  | some r => rw [hml] at hok; exact ⟨r, rfl, of_decide_eq_true hok⟩

/-- C1 witness: a concrete search with `max_rent = 700` containing
`wListing`, whose rent 600 is below the cap. -/
theorem search_max_rent_le_witness :
    ∃ r : ℚ, wListing.monthly_rent = some r ∧ r ≤ 700 :=
  search_max_rent_le { max_rent := some 700 } [wListing] 700 rfl
    wListing (score_listing wListing) (by with_unfolding_all decide)

/-- C2 (amended): every search result is sorted in descending score
order — each row's score is at least the next row's. -/
theorem search_sorted_desc (p : SearchParams) (df : List Listing) :
    List.Pairwise (fun a b : Listing × ℚ => b.2 ≤ a.2) (search p df) := by
  unfold search search_with
  by_cases he : (filter_listings p df).isEmpty
  · rw [if_pos he]
    exact List.Pairwise.nil
  · rw [if_neg he]
    haveI : IsTotal (Listing × ℚ) (fun a b => a.2 ≤ b.2) :=
      ⟨fun a b => le_total a.2 b.2⟩
    haveI : IsTrans (Listing × ℚ) (fun a b => a.2 ≤ b.2) :=
      ⟨fun _ _ _ hab hbc => le_trans hab hbc⟩
    refine List.Pairwise.sublist (List.take_sublist _ _) ?_
    unfold rank_with
    rw [List.pairwise_reverse]
    exact List.sorted_insertionSort (fun a b : Listing × ℚ => a.2 ≤ b.2) _

/-- C2 counterexample: two distinct listings with equal scores come back
in **reversed** dataset order (`[tieA, tieB]` returns ids `[2, 1]`), so
the sort is not stable in the claimed sense. -/
theorem search_tie_order_counterexample :
    score_listing tieA = score_listing tieB ∧ tieA.id ≠ tieB.id ∧
    (search {} [tieA, tieB]).map (fun r => r.1.id) = [2, 1] := by
  with_unfolding_all decide

/-- C3 counterexample: a native Python `True` and the integer `2` are
not among the strings "yes"/"true"/"1", yet both coerce to `true`. -/
theorem parse_bool_counterexample :
    parse_bool (PyVal.pbool true) = true ∧ parse_bool (PyVal.pint 2) = true := by
  decide

/-- C3 (amended): the load-time boolean coercion maps a *string* to true
exactly when it is "yes"/"true"/"1" after trimming and lower-casing;
None and NaN map to false; native booleans pass through; other numbers
coerce by Python truthiness (nonzero is true). -/
theorem parse_bool_spec :
    (∀ s : String, parse_bool (.pstr s) = true ↔
      s.trim.toLower ∈ (["yes", "true", "1"] : List String))
    ∧ parse_bool .pnone = false
    ∧ parse_bool .pnan = false
    ∧ (∀ b : Bool, parse_bool (.pbool b) = b)
    ∧ (∀ n : Int, parse_bool (.pint n) = true ↔ n ≠ 0)
    ∧ (∀ q : ℚ, parse_bool (.pfloat q) = true ↔ q ≠ 0) := by
  refine ⟨fun s => ?_, rfl, rfl, fun b => rfl, fun n => ?_, fun q => ?_⟩
  · show (["yes", "true", "1"] : List String).contains (s.trim.toLower) = true ↔ _
    simp [List.contains]
  · show (n != 0) = true ↔ n ≠ 0
    exact bne_iff_ne
  · show (q != 0) = true ↔ q ≠ 0
    exact bne_iff_ne

/-- Congruence for `search_with` in the parameter record: equal filtered
sets and equal `top_n` give equal results. -/
theorem search_with_congr (sc : Listing → ℚ) (p₁ p₂ : SearchParams)
    (df : List Listing) (hf : filter_listings p₁ df = filter_listings p₂ df)
    (ht : p₁.top_n = p₂.top_n) :
    search_with sc p₁ df = search_with sc p₂ df := by
  unfold search_with
  rw [hf, ht]

/-- C4: searching with `language="mandarin"` and `language="Chinese"`
gives identical result sequences for every dataset and otherwise-equal
parameters, because both canonicalise to "Chinese" in
`LANGUAGE_ALIASES` before the substring test. -/
theorem search_mandarin_eq_chinese (p : SearchParams) (df : List Listing) :
    search { p with language := some "mandarin" } df
      = search { p with language := some "Chinese" } df := by
  have hok : language_ok { p with language := some "mandarin" }
      = language_ok { p with language := some "Chinese" } := by
    funext l
    show (if ("mandarin" : String) = "" then true
          else match l.languages_spoken with
               | none => false
               | some spoken => containsCI spoken (alias_lookup "mandarin"))
        = (if ("Chinese" : String) = "" then true
          else match l.languages_spoken with
               | none => false
               | some spoken => containsCI spoken (alias_lookup "Chinese"))
    rw [if_neg (by decide), if_neg (by decide)]
    have ha : alias_lookup "mandarin" = alias_lookup "Chinese" := by
      with_unfolding_all decide
    rw [ha]
  have hf : filter_listings { p with language := some "mandarin" } df
      = filter_listings { p with language := some "Chinese" } df := by
    unfold filter_listings
    rw [hok]
    rfl
  exact search_with_congr score_listing _ _ df hf rfl

/-- The boolean-column normalisation pass never changes the column
list. -/
theorem cols_bool_fold (cs : List String) (t : RawTable) :
    (cs.foldl (fun acc c =>
      if acc.cols.contains c
      then map_col c (fun v => .pbool (parse_bool v)) acc
      else acc) t).cols = t.cols := by
  induction cs generalizing t with
  | nil => rfl
  | cons c cs ih =>
    rw [List.foldl_cons, ih]
    by_cases h : t.cols.contains c
    · rw [if_pos h]
      rfl
    · rw [if_neg h]

/-- C5 counterexample: a table with only `id`, `monthly_rent` and
`bedrooms` — in particular without the required `section8_accepted`
column — loads successfully. -/
theorem load_missing_flag_counterexample :
    (load_data { cols := ["id", "monthly_rent", "bedrooms"],
                 rows := [[("id", .pint 1), ("monthly_rent", .pstr "700"),
                           ("bedrooms", .pint 2)]] }).isOk = true := by
  with_unfolding_all decide

/-- C5 (amended): loading fails exactly when `monthly_rent` or
`bedrooms` is absent; the boolean-flag columns (and all other columns)
are not checked at load time — a missing one is silently skipped by the
`if col in df.columns` guard. -/
theorem cols_normalize_bools (t : RawTable) :
    (normalize_bools t).cols = t.cols :=
  cols_bool_fold bool_columns t

theorem load_data_required_columns (t : RawTable) :
    (load_data t).isOk
      = (t.cols.contains "monthly_rent" && t.cols.contains "bedrooms") := by
  unfold load_data
  have h2 : (map_col "monthly_rent" to_numeric
      (normalize_bools t)).cols = t.cols := by
    rw [map_col]
    exact cols_normalize_bools t
  rw [cols_normalize_bools, h2]
  by_cases h1 : t.cols.contains "monthly_rent" = true
  · rw [if_neg (not_not_intro h1), h1, Bool.true_and]
    by_cases h3 : t.cols.contains "bedrooms" = true
    · rw [if_neg (not_not_intro h3), h3]
      rfl
    · rw [Bool.not_eq_true] at h3
      rw [if_pos (by rw [h3]; decide), h3]
      rfl
  · rw [Bool.not_eq_true] at h1
    rw [if_pos (by rw [h1]; decide), h1, Bool.false_and]
    rfl

/-- The conjunction of the thirteen filter predicates, in source
(application) order. -/
def active_all (p : SearchParams) (l : Listing) : Bool :=
  max_rent_ok p l && (min_bedrooms_ok p l && (city_ok p l && (state_ok p l &&
  (zip_ok p l && (section8_ok p l && (hud_ok p l && (low_income_ok p l &&
  (transit_ok p l && (pets_ok p l && (accessibility_ok p l && (ami_ok p l &&
  language_ok p l)))))))))))

/-- The same conjunction in reverse order. -/
def active_all_rev (p : SearchParams) (l : Listing) : Bool :=
  language_ok p l && (ami_ok p l && (accessibility_ok p l && (pets_ok p l &&
  (transit_ok p l && (low_income_ok p l && (hud_ok p l && (section8_ok p l &&
  (zip_ok p l && (state_ok p l && (city_ok p l && (min_bedrooms_ok p l &&
  max_rent_ok p l)))))))))))

/-- Reversing a thirteen-fold boolean conjunction. -/
theorem bool_and_reorder (a b c d e f g h i j k m n : Bool) :
    (n && (m && (k && (j && (i && (h && (g && (f && (e && (d && (c && (b && (a)))))))))))))
    = (a && (b && (c && (d && (e && (f && (g && (h && (i && (j && (k && (m && (n))))))))))))) := by
  revert a b c d e f g h i j k m n
  decide

/-- C6: the sequential filter pipeline computes exactly the single-pass
filter by the AND of all thirteen predicates, and that conjunction can
be taken in reverse order without changing the surviving rows — the
filters commute. -/
theorem filters_conjunctive (p : SearchParams) (df : List Listing) :
    filter_listings p df = df.filter (active_all p)
    ∧ df.filter (active_all p) = df.filter (active_all_rev p) := by
  constructor
  · unfold filter_listings
    simp only [List.filter_filter]
    apply List.filter_congr
    intro x _
    unfold active_all
    exact bool_and_reorder _ _ _ _ _ _ _ _ _ _ _ _ _
  · apply List.filter_congr
    intro x _
    unfold active_all active_all_rev
    exact (bool_and_reorder _ _ _ _ _ _ _ _ _ _ _ _ _).symm
/-- Keys contributed by an option-triggered parser rule. -/
theorem mem_fst_opt {β : Type} (o : Option β) (k : String) (g : β → PVal)
    (a : String) :
    (a ∈ (opt_param o k g).map Prod.fst) ↔ o.isSome = true ∧ a = k := by
  cases o <;> simp [opt_param]

/-- Keys contributed by a flag-triggered parser rule. -/
theorem mem_fst_if (b : Bool) (k : String) (v : PVal) (a : String) :
    (a ∈ (if b then [(k, v)] else ([] : List (String × PVal))).map Prod.fst)
      ↔ b = true ∧ a = k := by
  cases b <;> simp

/-- An option-triggered rule contributes a sublist of its one key. -/
theorem sublist_fst_opt {β : Type} (o : Option β) (k : String) (g : β → PVal) :
    ((opt_param o k g).map Prod.fst).Sublist [k] := by
  cases o <;> simp [opt_param]

/-- A flag-triggered rule contributes a sublist of its one key. -/
theorem sublist_fst_if (b : Bool) (k : String) (v : PVal) :
    ((if b then [(k, v)] else ([] : List (String × PVal))).map
      Prod.fst).Sublist [k] := by
  cases b <;> simp

/-- C7: `parse_query` is total by construction (it returns for every
input string), its keys always form a sublist of the fixed key set, and
each key appears exactly when its rule's pattern matched the lower-cased
input — an absent pattern omits the key rather than failing. -/
theorem parse_query_total (query : String) :
    ((parse_query query).map Prod.fst).Sublist param_keys
    ∧ (("max_rent" ∈ (parse_query query).map Prod.fst)
        ↔ (rent_match query.toLower).isSome = true)
    ∧ (("min_bedrooms" ∈ (parse_query query).map Prod.fst)
        ↔ (bed_match query.toLower).isSome = true)
    ∧ (("city" ∈ (parse_query query).map Prod.fst)
        ↔ (city_match query.toLower).isSome = true)
    ∧ (("state" ∈ (parse_query query).map Prod.fst)
        ↔ state_match query.toLower = true)
    ∧ (("section8" ∈ (parse_query query).map Prod.fst)
        ↔ section8_match query.toLower = true)
    ∧ (("hud_approved" ∈ (parse_query query).map Prod.fst)
        ↔ contains_sub query.toLower "hud" = true)
    ∧ (("low_income_only" ∈ (parse_query query).map Prod.fst)
        ↔ low_income_match query.toLower = true)
    ∧ (("needs_transit" ∈ (parse_query query).map Prod.fst)
        ↔ transit_match query.toLower = true)
    ∧ (("pets_allowed" ∈ (parse_query query).map Prod.fst)
        ↔ pets_match query.toLower = true)
    ∧ (("accessibility" ∈ (parse_query query).map Prod.fst)
        ↔ accessibility_match query.toLower = true)
    ∧ (("language" ∈ (parse_query query).map Prod.fst)
        ↔ (lang_match query.toLower).isSome = true) := by
  constructor
  · show ((parse_query query).map Prod.fst).Sublist
      ((((((((((["max_rent"] ++ ["min_bedrooms"]) ++ ["city"]) ++ ["state"])
       ++ ["section8"]) ++ ["hud_approved"]) ++ ["low_income_only"]) ++
       ["needs_transit"]) ++ ["pets_allowed"]) ++ ["accessibility"]) ++
       ["language"])
    simp only [parse_query, List.map_append]
    exact ((((((((((sublist_fst_opt _ _ _).append
      (sublist_fst_opt _ _ _)).append
      (sublist_fst_opt _ _ _)).append
      (sublist_fst_if _ _ _)).append
      (sublist_fst_if _ _ _)).append
      (sublist_fst_if _ _ _)).append
      (sublist_fst_if _ _ _)).append
      (sublist_fst_if _ _ _)).append
      (sublist_fst_if _ _ _)).append
      (sublist_fst_if _ _ _)).append
      (sublist_fst_opt _ _ _)
  refine ⟨?_, ?_, ?_, ?_, ?_, ?_, ?_, ?_, ?_, ?_, ?_⟩ <;>
    · simp only [parse_query, List.map_append, List.mem_append, mem_fst_opt,
        mem_fst_if]
      simp

/-- C8: when no listing survives the hard filters, `search` returns the
empty sequence for **every** scoring function (the scoring step is never
reached), and `answer_query` on a query whose parsed parameters match
nothing produces exactly the fixed apology summary, which contains the
apology phrase. -/
theorem search_empty_short_circuit (p : SearchParams) (df : List Listing)
    (query : String) (top_n : Int)
    (hp : filter_listings p df = [])
    (hq : filter_listings (to_search_params (parse_query query) top_n) df = []) :
    (∀ sc : Listing → ℚ, search_with sc p df = [])
    ∧ (answer_query df query top_n).summary = no_match_summary
    ∧ contains_sub no_match_summary "sorry" = true := by
  refine ⟨fun sc => ?_, ?_, ?_⟩
  · unfold search_with
    rw [hp]
    rfl
  · have hres : search (to_search_params (parse_query query) top_n) df = [] := by
      unfold search search_with
      rw [hq]
      rfl
    simp only [answer_query]
    rw [hres]
    rfl
  · with_unfolding_all decide

/-- C8 witness: a one-listing dataset whose only listing rents at 600,
searched with `max_rent = 100` (and via the query "under 100"). -/
theorem search_empty_short_circuit_witness :
    search_with (fun _ => 0) { max_rent := some 100 } [wListing] = []
    ∧ (answer_query [wListing] "under 100" 5).summary = no_match_summary :=
  ⟨(search_empty_short_circuit { max_rent := some 100 } [wListing] "under 100" 5
      (by with_unfolding_all decide) (by with_unfolding_all decide)).1
      (fun _ => 0),
   (search_empty_short_circuit { max_rent := some 100 } [wListing] "under 100" 5
      (by with_unfolding_all decide) (by with_unfolding_all decide)).2.1⟩

/-- Rounding to two decimals is monotone. -/
theorem round2_mono {x y : ℚ} (h : x ≤ y) : round2 x ≤ round2 y := by
  unfold round2
  have hf : ⌊x * 100 + 1 / 2⌋ ≤ ⌊y * 100 + 1 / 2⌋ :=
    Int.floor_le_floor (by linarith)
  have hc : ((⌊x * 100 + 1 / 2⌋ : ℤ) : ℚ) ≤ ((⌊y * 100 + 1 / 2⌋ : ℤ) : ℚ) := by
    exact_mod_cast hf
  linarith

/-- Rounding fixes the value 90. -/
theorem round2_ninety : round2 90 = 90 := by
  unfold round2
  have h9 : (⌊(90 : ℚ) * 100 + 1 / 2⌋ : ℤ) = 9000 := by
    rw [Int.floor_eq_iff]
    norm_num
  rw [h9]
  norm_num

/-- C9: for listings with a non-negative (or missing) rent, the
composite score never exceeds 90: the affordability component is at most
40 and equals 40 exactly at rent 0, and the bonuses sum to at most
50. -/
theorem score_listing_bounds (l : Listing)
    (h : ∀ r : ℚ, l.monthly_rent = some r → 0 ≤ r) :
    score_listing l ≤ 90
    ∧ affordability l ≤ 40
    ∧ (affordability l = 40 ↔ l.monthly_rent = some 0)
    ∧ bonus l ≤ 50 := by
  have hbonus : bonus l ≤ 50 := by
    unfold bonus
    have b1 : (if l.low_income_eligible then (15 : ℚ) else 0) ≤ 15 := by
      split <;> norm_num
    have b2 : (if l.section8_accepted then (10 : ℚ) else 0) ≤ 10 := by
      split <;> norm_num
    have b3 : (if l.hud_approved then (10 : ℚ) else 0) ≤ 10 := by
      split <;> norm_num
    have b4 : (if l.nearby_transit then (5 : ℚ) else 0) ≤ 5 := by
      split <;> norm_num
    have b5 : (if l.utilities_included then (5 : ℚ) else 0) ≤ 5 := by
      split <;> norm_num
    have b6 : (match l.accessibility_features with
               | none => (5 : ℚ)
               | some s =>
                 if s != "" && s.trim != "None" && s.trim != "" then 5 else 0)
        ≤ 5 := by
      cases l.accessibility_features with
      | none => norm_num
      | some s =>
        dsimp only
        split <;> norm_num
    linarith
  have haff : affordability l ≤ 40
      ∧ (affordability l = 40 ↔ l.monthly_rent = some 0) := by
    unfold affordability
    cases hml : l.monthly_rent with
    | none =>
      dsimp only
      refine ⟨by norm_num, ?_, ?_⟩
      · intro h0
        norm_num at h0
      · intro hc
        cases hc
    | some r =>
      dsimp only
      have hr := h r hml
      have hdiv : (0 : ℚ) ≤ r / 30 := by positivity
      refine ⟨max_le (by norm_num) (by linarith), ?_, ?_⟩
      · intro hmax
        rcases max_cases (0 : ℚ) (40 - r / 30) with ⟨he, _⟩ | ⟨he, _⟩ <;>
          rw [he] at hmax
        · norm_num at hmax
        · have h30 : r / 30 = 0 := by linarith
          have hr0 : r = 0 := by
            field_simp at h30
            exact h30
          rw [hr0]
      · intro hc
        obtain rfl : r = 0 := Option.some.inj hc
        norm_num
  refine ⟨?_, haff.1, haff.2, hbonus⟩
  unfold score_listing
  have hsum : affordability l + bonus l ≤ 90 := by linarith [haff.1]
  have h90 := round2_mono hsum
  rw [round2_ninety] at h90
  exact h90

/-- The best-case listing: rent 0 and every bonus granted. -/
def wMax : Listing :=
  { id := 9, monthly_rent := some 0, low_income_eligible := true,
    section8_accepted := true, hud_approved := true, nearby_transit := true,
    utilities_included := true, accessibility_features := some "ramp" }

/-- C9 witness: the bounds instantiated at the best-case listing. -/
theorem score_listing_bounds_witness :
    score_listing wMax ≤ 90
    ∧ affordability wMax ≤ 40
    ∧ (affordability wMax = 40 ↔ wMax.monthly_rent = some 0)
    ∧ bonus wMax ≤ 50 :=
  score_listing_bounds wMax (fun r hr => by
    rw [show wMax.monthly_rent = some 0 from rfl] at hr
    obtain rfl : (0 : ℚ) = r := Option.some.inj hr
    exact le_refl 0)

/-- C10: for every method other than "call" and "sms" — not only
"email" — `contact_agent_for_listing` takes the email branch; in
particular a listing whose `agent_email` is the empty string yields
`success = false` with an error message, whatever the three transports
are (none is invoked). -/
theorem contact_email_fallback
    (ct st : String → String → ContactResult)
    (et : String → String → String → ContactResult)
    (listing : List (String × PyVal))
    (user_name user_phone user_email lang method : String)
    (hc : method ≠ "call") (hs : method ≠ "sms") :
    contact_agent_for_listing ct st et listing user_name user_phone user_email
        lang method
      = (if py_truthy (dict_get listing "agent_email" (.pstr "")) = true then
           et (py_str (dict_get listing "agent_email" (.pstr "")))
             (build_email listing user_name user_phone user_email lang).1
             (build_email listing user_name user_phone user_email lang).2
         else
           { success := false, error := some "No agent email for this listing." })
    ∧ (dict_get listing "agent_email" (.pstr "") = .pstr "" →
       contact_agent_for_listing ct st et listing user_name user_phone
           user_email lang method
         = { success := false,
             error := some "No agent email for this listing." }) := by
  constructor
  · unfold contact_agent_for_listing
    rw [if_neg hc, if_neg hs]
    by_cases hb : py_truthy (dict_get listing "agent_email" (.pstr "")) = true
    · rw [if_neg (not_not_intro hb), if_pos hb]
    · rw [if_pos hb, if_neg hb]
  · intro he
    unfold contact_agent_for_listing
    rw [if_neg hc, if_neg hs, he]
    rw [if_pos (by decide)]

/-- C10 witness: method "fax" with an empty agent email and transports
that would report success if they were ever reached. -/
theorem contact_email_fallback_witness :
    contact_agent_for_listing (fun _ _ => ⟨true, none, none⟩)
      (fun _ _ => ⟨true, none, none⟩) (fun _ _ _ => ⟨true, none, none⟩)
      [("agent_email", PyVal.pstr "")] "Ana" "555-0000" "ana@example.org"
      "English" "fax"
      = { success := false, error := some "No agent email for this listing." } :=
  (contact_email_fallback _ _ _ [("agent_email", PyVal.pstr "")]
    "Ana" "555-0000" "ana@example.org" "English" "fax"
    (by decide) (by decide)).2 (by decide)

end Housing
